import Mathlib

/-!
Verification of the ai_defender_bot protection engine against its
natural-language specification.  The Python modules are shallowly embedded:
per-tenant dictionaries become total functions with the dictionary default,
sets become duplicate-free lists, timestamps become naturals, and each
fallible platform call is threaded as an explicit success flag.  All
definitions are transcribed from the source modules (src/modules/anti_spam.py,
src/modules/anti_raid.py, src/modules/anti_nuke.py, src/utils/backup.py,
src/main.py); claims are then stated and settled against these definitions.
-/

namespace AIDefender

/-- Pointwise update of a one-key map (a Python dict viewed as a total
function with its defaultdict default). -/
def upd1 {α : Type} (f : Nat → α) (k : Nat) (v : α) : Nat → α :=
  fun x => if x = k then v else f x

/-- Pointwise update of a two-key map (nested defaultdict). -/
def upd2 {α : Type} (f : Nat → Nat → α) (k1 k2 : Nat) (v : α) : Nat → Nat → α :=
  fun x y => if x = k1 ∧ y = k2 then v else f x y

/-- A row of the moderation_logs table (src/main.py `_setup_db`); the
DATETIME column is not modelled since no claim reads it back. -/
structure ModLogEntry where
  server_id : Nat
  user_id : Nat
  action : String
  reason : String
  moderator_id : Nat
deriving DecidableEq

/-- The suffix appended to the punishment name in anti_spam moderation log
rows (Python f-string `f"{action}_spam"`). -/
def spamTag : String := "_spam"

/-- Mutable state of AntiSpamModule (src/modules/anti_spam.py).
`message_history` is not needed by the claims about `_take_action` and is
omitted; `user_last_warn` is a nested dict read with `.get(user_id, 0)`,
hence a total map with default 0, and `repeat_offenders` a nested
defaultdict(int). -/
structure SpamState where
  user_last_warn : Nat → Nat → Nat
  repeat_offenders : Nat → Nat → Nat
  moderation_logs : List ModLogEntry

/-- Result of one `_take_action` call: the warning branch, the punishment
branch completing, or the punishment branch aborted by discord.Forbidden. -/
inductive SpamOutcome
  | warned
  | punished
  | punishFailed
deriving DecidableEq

/-- AntiSpamModule._take_action (src/modules/anti_spam.py lines 77-121).
`ok` models whether the try block (platform punishment call and the
database insert) runs to completion or raises discord.Forbidden; on
Forbidden the repeat-offender increment and the log insert are skipped
because they sit inside the same try block after the platform call. -/
def take_action (ok : Bool) (punishment : String) (bot_id : Nat)
    (st : SpamState) (g u now : Nat) (reason : String) :
    SpamState × SpamOutcome :=
  let last_warn := st.user_last_warn g u
  if 300 < now - last_warn then
    ({ st with user_last_warn := upd2 st.user_last_warn g u now },
     SpamOutcome.warned)
  else if ok then
    ({ st with
        repeat_offenders := upd2 st.repeat_offenders g u
          (st.repeat_offenders g u + 1),
        moderation_logs := st.moderation_logs ++
          [⟨g, u, punishment ++ spamTag, reason, bot_id⟩] },
     SpamOutcome.punished)
  else
    (st, SpamOutcome.punishFailed)

/-- The default punishment configured for anti_spam (src/config.py). -/
def punMute : String := "mute"

/-- A sample reason string for concrete evaluations. -/
def demoReason : String := "Excessive message frequency"

/-- Demo bot account id. -/
def botIdDemo : Nat := 99

/-- A spam state in which subject 2 of tenant 1 was last warned at
time 1000; no punishments have been recorded. -/
def spamSt1 : SpamState where
  user_last_warn := fun g u => if g = 1 ∧ u = 2 then 1000 else 0
  repeat_offenders := fun _ _ => 0
  moderation_logs := []

/-! ### AntiRaidModule (src/modules/anti_raid.py) -/

/-- Configuration of anti_raid (src/config.py MODULE_SETTINGS). -/
structure RaidConfig where
  join_threshold : Nat
  time_window : Nat
  verification_level : Nat

/-- A scheduled `_disable_lockdown` task: the guild it will unlock, the
absolute time `asyncio.sleep(3600)` lets it run at, and the
`original_verification` level captured at activation that it restores. -/
structure LockTimer where
  guild : Nat
  fire_at : Nat
  original_verification : Nat
deriving DecidableEq

/-- Mutable state of AntiRaidModule plus the platform-side tenant
verification level it edits and the pending lockdown-release tasks.
`join_times` is guild -> (user -> join time) kept as an association list so
`.values()` can be iterated; `recent_joins` and `suspected_raiders` are the
per-guild sets; `lockdown_mode` is the set of locked guild ids. -/
structure RaidSys where
  join_times : Nat → List (Nat × Nat)
  recent_joins : Nat → List Nat
  suspected_raiders : Nat → List Nat
  lockdown_mode : Nat → Bool
  verification : Nat → Nat
  timers : List LockTimer
  moderation_logs : List ModLogEntry

/-- Python `dict[k] = v`: overwrite in place if the key exists, else append. -/
def dictSet (l : List (Nat × Nat)) (k v : Nat) : List (Nat × Nat) :=
  if l.any (fun p => p.1 == k) then
    l.map (fun p => if p.1 = k then (k, v) else p)
  else
    l ++ [(k, v)]

/-- Python `set.add`. -/
def setAdd (l : List Nat) (x : Nat) : List Nat :=
  if x ∈ l then l else l ++ [x]

/-- The joining member's attributes read by `_is_suspicious_account`:
account creation time, whether a custom avatar is set, whether the default
avatar is displayed, and `len(member.roles)`. -/
structure Member where
  id : Nat
  created_at : Nat
  has_avatar : Bool
  default_avatar : Bool
  roles_len : Nat

/-- AntiRaidModule._is_suspicious_account (anti_raid.py lines 90-102):
age under 24h, or no custom avatar, or default avatar with only the
base role. -/
def is_suspicious_account (now : Nat) (m : Member) : Bool :=
  if now - m.created_at < 86400 then true
  else if !m.has_avatar then true
  else if m.default_avatar ∧ m.roles_len = 1 then true
  else false

/-- The message attributes read by `_is_spam_behavior`. -/
structure Msg where
  author_bot : Bool
  mentions : Nat
  content : List Char

/-- Whether `pat` occurs at the start of `l`. -/
def startsWithL : List Char → List Char → Bool
  | [], _ => true
  | _ :: _, [] => false
  | c :: cs, d :: ds => c == d && startsWithL cs ds

/-- Python substring test `pat in l`. -/
def containsSub (pat : List Char) : List Char → Bool
  | [] => startsWithL pat []
  | c :: cs => startsWithL pat (c :: cs) || containsSub pat cs

/-- Python `str.lower()` on the modelled character list. -/
def lowerL (l : List Char) : List Char := l.map Char.toLower

/-- Substring pattern http. -/
def httpPat : List Char := "http".toList

/-- Substring pattern discord.gg. -/
def discordGgPat : List Char := "discord.gg".toList

/-- Substring pattern invite. -/
def invitePat : List Char := "invite".toList

/-- Substring pattern nitro. -/
def nitroPat : List Char := "nitro".toList

/-- AntiRaidModule._is_spam_behavior (anti_raid.py lines 104-120): more
than 3 mentions, or low character diversity on a long message
(`len(set(content)) / len(content) < 0.5` becomes the exact rational test
2 * distinct < length), or an invite-style link. -/
def is_spam_behavior (m : Msg) : Bool :=
  if 3 < m.mentions then true
  else if 50 < m.content.length ∧
      2 * m.content.dedup.length < m.content.length then true
  else if containsSub httpPat m.content ∧
      (containsSub discordGgPat (lowerL m.content) ∨
       containsSub invitePat (lowerL m.content) ∨
       containsSub nitroPat (lowerL m.content)) then true
  else false

/-- AntiRaidModule._get_recent_joins (anti_raid.py lines 78-88): count the
stored join times within `time_window` of now. -/
def get_recent_joins (cfg : RaidConfig) (s : RaidSys) (g now : Nat) : Nat :=
  ((s.join_times g).filter (fun p => now - p.2 ≤ cfg.time_window)).length

/-- Prefix of the action string written to moderation_logs by anti_raid
(Python f-string `f"anti_raid_{action}"`). -/
def antiRaidTag : String := "anti_raid_"

/-- AntiRaidModule._process_suspected_member (anti_raid.py lines 178-203):
performs the configured remedial action and then inserts a moderation log
row; both sit inside one try block, so `ok = false` (any exception, e.g.
permission denied) skips the log insert and leaves all state unchanged. -/
def process_suspected_member (ok : Bool) (actionName : String) (bot_id : Nat)
    (s : RaidSys) (g u : Nat) (reason : String) : RaidSys :=
  if ok then
    { s with moderation_logs := s.moderation_logs ++
        [⟨g, u, antiRaidTag ++ actionName, reason, bot_id⟩] }
  else s

/-- AntiRaidModule._activate_lockdown (anti_raid.py lines 122-163): no-op
when the guild is already locked; otherwise the guild is marked locked
before the try block, so it is locked even when the rest fails.  Inside
the try, `guild.edit` raises the verification level to `max(current,
configured)` and can raise (`edit_ok`); then `await guild.invites()` can
raise (`invites_ok`; the per-invite deletions and the per-member kicks
have inner try/continue, and `_send_lockdown_notice` catches internally);
`create_task(_disable_lockdown ...)`, carrying the pre-lockdown level and
due 3600 seconds later, is the last statement of the try, so the release
task is scheduled only when the whole block completes — an aborted
activation leaves the tenant locked with no release pending. -/
def activate_lockdown (cfg : RaidConfig) (edit_ok invites_ok : Bool)
    (s : RaidSys) (g now : Nat) : RaidSys :=
  if s.lockdown_mode g then s
  else
    let s0 := { s with lockdown_mode := upd1 s.lockdown_mode g true }
    if edit_ok then
      let orig := s.verification g
      let s1 := { s0 with
          verification := upd1 s0.verification g (max orig cfg.verification_level) }
      if invites_ok then
        { s1 with timers := s1.timers ++ [⟨g, now + 3600, orig⟩] }
      else s1
    else s0

/-- AntiRaidModule._disable_lockdown (anti_raid.py lines 165-176): after
sleeping until its fire time, the task calls `guild.edit` to restore the
captured verification level and only then discards the lockdown flag,
both inside one try — a denied edit (`edit_ok = false`) leaves the tenant
locked at the raised level.  The task itself is consumed either way. -/
def disable_lockdown (edit_ok : Bool) (s : RaidSys) (t : LockTimer) :
    RaidSys :=
  if edit_ok then
    { s with
        verification := upd1 s.verification t.guild t.original_verification,
        lockdown_mode := upd1 s.lockdown_mode t.guild false,
        timers := s.timers.erase t }
  else
    { s with timers := s.timers.erase t }

/-- Which branch of on_member_join ran. -/
inductive JoinOutcome
  | lockdown_suspect
  | activated
  | flagged_suspicious
  | normal
deriving DecidableEq

/-- Reason string for a join during lockdown. -/
def joinLockReason : String := "Join during lockdown"

/-- Reason string for suspicious account traits. -/
def suspiciousReason : String := "Suspicious account traits"

/-- Reason string for messaging while suspected. -/
def msgSuspectReason : String := "Messaging while suspected"

/-- Reason string for spam behavior after joining. -/
def spamJoinReason : String := "Spam behavior after joining"

/-- AntiRaidModule.on_member_join (anti_raid.py lines 30-56).  While the
guild is locked the join is handed to `_process_suspected_member` and the
handler returns without touching any tracking state.  Otherwise the join is
recorded in `join_times` and `recent_joins`, the in-window join count is
compared against `join_threshold`, and failing that the account is screened
by `_is_suspicious_account`. -/
def on_member_join (cfg : RaidConfig) (ok edit_ok invites_ok : Bool)
    (actionName : String) (bot_id : Nat) (s : RaidSys) (g : Nat)
    (m : Member) (now : Nat) : RaidSys × JoinOutcome :=
  if s.lockdown_mode g then
    (process_suspected_member ok actionName bot_id s g m.id joinLockReason,
     JoinOutcome.lockdown_suspect)
  else
    let s1 := { s with
        join_times := upd1 s.join_times g (dictSet (s.join_times g) m.id now),
        recent_joins := upd1 s.recent_joins g (setAdd (s.recent_joins g) m.id) }
    if cfg.join_threshold ≤ get_recent_joins cfg s1 g now then
      (activate_lockdown cfg edit_ok invites_ok s1 g now, JoinOutcome.activated)
    else if is_suspicious_account now m then
      let newSusp := upd1 s1.suspected_raiders g (setAdd (s1.suspected_raiders g) m.id)
      let s2 := { s1 with suspected_raiders := newSusp }
      (process_suspected_member ok actionName bot_id s2 g m.id suspiciousReason,
       JoinOutcome.flagged_suspicious)
    else
      (s1, JoinOutcome.normal)

/-- AntiRaidModule.on_message (anti_raid.py lines 58-76): bot authors are
ignored; a suspected author is processed immediately; a recently joined
author showing spam behavior is added to the suspects and processed. -/
def raid_on_message (ok : Bool) (actionName : String) (bot_id : Nat)
    (s : RaidSys) (g u : Nat) (m : Msg) : RaidSys :=
  if m.author_bot then s
  else if u ∈ s.suspected_raiders g then
    process_suspected_member ok actionName bot_id s g u msgSuspectReason
  else if u ∈ s.recent_joins g ∧ is_spam_behavior m then
    let newSusp := upd1 s.suspected_raiders g (setAdd (s.suspected_raiders g) u)
    let s1 := { s with suspected_raiders := newSusp }
    process_suspected_member ok actionName bot_id s1 g u spamJoinReason
  else s

/-- An event delivered to the anti-raid module between two points in time:
a member join or a member message, each carrying the success flags of its
platform calls (for a join, also those of a lockdown activation it may
trigger). -/
inductive REvent
  | join (g : Nat) (m : Member) (now : Nat) (ok edit_ok invites_ok : Bool)
  | msg (g u : Nat) (m : Msg) (ok : Bool)

/-- Dispatch one event to its anti-raid handler. -/
def step_event (cfg : RaidConfig) (actionName : String) (bot_id : Nat)
    (s : RaidSys) : REvent → RaidSys
  | REvent.join g m now ok eok iok =>
      (on_member_join cfg ok eok iok actionName bot_id s g m now).1
  | REvent.msg g u m ok => raid_on_message ok actionName bot_id s g u m

/-- Deliver a list of events in order (per-tenant events are processed in
platform arrival order). -/
def run_events (cfg : RaidConfig) (actionName : String) (bot_id : Nat) :
    List REvent → RaidSys → RaidSys
  | [], s => s
  | e :: rest, s => run_events cfg actionName bot_id rest (step_event cfg actionName bot_id s e)

/-! ### AntiNukeModule (src/modules/anti_nuke.py) -/

/-- Configuration of anti_nuke (src/config.py MODULE_SETTINGS). -/
structure NukeConfig where
  max_channel_deletes : Nat
  max_role_deletes : Nat

/-- Per-(guild, actor) counters of AntiNukeModule, nested defaultdict(int). -/
structure NukeState where
  channel_deletions : Nat → Nat → Nat
  role_deletions : Nat → Nat → Nat
  admin_changes : Nat → Nat → Nat

/-- The audit action types queried by anti_nuke. -/
inductive AuditAction
  | channel_delete
  | role_delete
  | member_role_update
deriving DecidableEq

/-- An entry of the platform audit feed: its action type and the acting
account.  A feed is listed most-recent-first, the order
`guild.audit_logs` yields entries. -/
structure AuditEntry where
  action : AuditAction
  user : Nat
deriving DecidableEq

/-- AntiNukeModule._get_last_deletor (anti_nuke.py lines 72-82): the
actor of the most recent audit entry with action type channel_delete —
also when called from the role-deletion handler.  `none` for the feed
models discord.Forbidden (audit access denied), in which case the
function returns None. -/
def get_last_deletor : Option (List AuditEntry) → Option Nat
  | none => none
  | some feed =>
      ((feed.filter (fun e => e.action == AuditAction.channel_delete)).head?).map
        (fun e => e.user)

/-- The actor expression of both deletion handlers (anti_nuke.py lines 32
and 44): `guild.me.guild_permissions.view_audit_log and await
self._get_last_deletor(guild)` — a missing view permission short-circuits
to a falsy value, so no actor is resolved. -/
def resolve_deletor (view_audit_log : Bool)
    (feed : Option (List AuditEntry)) : Option Nat :=
  if view_audit_log then get_last_deletor feed else none

/-- Following the words of the spec (section 4.2), for comparison with the
code: the audit correlator returns the most-recent audit entry whose
action type matches the event kind. -/
def audit_actor_spec (kind : AuditAction) (feed : List AuditEntry) :
    Option Nat :=
  ((feed.filter (fun e => e.action == kind)).head?).map (fun e => e.user)

/-- AntiNukeModule.on_guild_channel_delete (anti_nuke.py lines 29-39):
with no resolved actor the handler returns with nothing recorded; with an
actor its per-(guild, actor) counter is incremented and `_handle_attack`
(the nuke-attempt Verdict, returned here as the Bool) fires when the
counter exceeds `max_channel_deletes`. -/
def on_guild_channel_delete (cfg : NukeConfig) (st : NukeState) (g : Nat)
    (view_audit_log : Bool) (feed : Option (List AuditEntry)) :
    NukeState × Bool :=
  match resolve_deletor view_audit_log feed with
  | none => (st, false)
  | some a =>
      let c := st.channel_deletions g a + 1
      ({ st with channel_deletions := upd2 st.channel_deletions g a c },
       decide (cfg.max_channel_deletes < c))

/-- AntiNukeModule.on_guild_role_delete (anti_nuke.py lines 41-51): same
shape as the channel handler, over `role_deletions` and
`max_role_deletes`, but resolving the actor with the same
`_get_last_deletor` (hence against channel_delete audit entries). -/
def on_guild_role_delete (cfg : NukeConfig) (st : NukeState) (g : Nat)
    (view_audit_log : Bool) (feed : Option (List AuditEntry)) :
    NukeState × Bool :=
  match resolve_deletor view_audit_log feed with
  | none => (st, false)
  | some a =>
      let c := st.role_deletions g a + 1
      ({ st with role_deletions := upd2 st.role_deletions g a c },
       decide (cfg.max_role_deletes < c))

/-- The anti_nuke configuration with both deletion thresholds at their
default 3 (src/config.py). -/
def cfg3 : NukeConfig := ⟨3, 3⟩

/-- A nuke state with all counters zero (module start-up). -/
def nukeZero : NukeState := ⟨fun _ _ => 0, fun _ _ => 0, fun _ _ => 0⟩

/-- A demo audit feed, most recent first: a role deletion by account 7,
then a channel deletion by account 9. -/
def demoFeed : List AuditEntry :=
  [⟨AuditAction.role_delete, 7⟩, ⟨AuditAction.channel_delete, 9⟩]

/-! ### BackupManager (src/utils/backup.py) and its schema (src/main.py) -/

/-- The serialized attributes of one role (backup.py lines 38-49). -/
structure RoleAttrs where
  name : String
  permissions : Nat
  color : Nat
  hoist : Bool
  position : Nat
  managed : Bool
  mentionable : Bool
deriving DecidableEq

/-- A live role of a guild. -/
structure GuildRole where
  id : Nat
  attrs : RoleAttrs
deriving DecidableEq

/-- A Python dictionary key as it appears at runtime: an int or a str.
Distinct constructors never compare equal, exactly as Python int and str
keys never collide in a dict. -/
inductive PyKey
  | int (n : Nat)
  | str (s : String)
deriving DecidableEq

/-- backup.py lines 37-49: the roles dict built by backup_guild, keyed by
the integer role id. -/
def serialize_roles (roles : List GuildRole) : List (PyKey × RoleAttrs) :=
  roles.map (fun r => (PyKey.int r.id, r.attrs))

/-- What json.dumps followed by json.loads does to a dict key: an int key
becomes its decimal string. -/
def key_to_json : PyKey → PyKey
  | PyKey.int n => PyKey.str (toString n)
  | PyKey.str s => PyKey.str s

/-- The stored roles dict after the JSON round trip through the database
(backup.py line 96 serializes, line 133 parses back). -/
def json_round_trip (l : List (PyKey × RoleAttrs)) : List (PyKey × RoleAttrs) :=
  l.map (fun p => (key_to_json p.1, p.2))

/-- A row of the server_backups table; `server_id INTEGER PRIMARY KEY`
(main.py lines 30-38).  Channels and settings blobs are carried by the
real row but read by no claim and are omitted. -/
structure BackupRow where
  server_id : Nat
  roles : List (PyKey × RoleAttrs)
  timestamp : Nat
deriving DecidableEq

/-- SQLite `INSERT OR REPLACE` against a table whose primary key is
server_id: an existing row with the same key is deleted, the new row
inserted. -/
def insert_or_replace (tbl : List BackupRow) (r : BackupRow) :
    List BackupRow :=
  tbl.filter (fun x => x.server_id != r.server_id) ++ [r]

/-- BackupManager.backup_guild (backup.py lines 34-108): serializes the
guild roles, JSON-encodes them, and writes the snapshot row with
`INSERT OR REPLACE INTO server_backups` (lines 90-101). -/
def backup_guild (tbl : List BackupRow) (gid : Nat)
    (roles : List GuildRole) (ts : Nat) : List BackupRow :=
  insert_or_replace tbl ⟨gid, json_round_trip (serialize_roles roles), ts⟩

/-- The `SELECT ... WHERE server_id = ? ORDER BY timestamp DESC LIMIT 1`
of restore_guild (backup.py lines 114-118): the stored row for the tenant
with the maximum timestamp, none when no row exists. -/
def latest_backup (tbl : List BackupRow) (gid : Nat) : Option BackupRow :=
  (tbl.filter (fun x => x.server_id == gid)).foldl
    (fun acc r =>
      match acc with
      | none => some r
      | some b => if b.timestamp < r.timestamp then some r else some b)
    none

/-- backup.py lines 133-146: the role-creation loop of restore_guild.
`existing_roles` is keyed by the live integer role id; the loop iterates
the parsed (string-keyed) snapshot dict and issues `guild.create_role`
for every key not found among the live keys.  Returns the list of
snapshot keys a creation call is issued for. -/
def role_creations (snapshot : List (PyKey × RoleAttrs))
    (live : List GuildRole) : List PyKey :=
  (snapshot.filter
      (fun kv => !(live.any (fun r => PyKey.int r.id == kv.1)))).map
    (fun kv => kv.1)

/-- BackupManager.restore_guild (backup.py lines 110-165), restricted to
its observable role-creation calls: none when no snapshot row exists for
the tenant, otherwise the creation calls the loop issues against the
latest stored snapshot. -/
def restore_guild (tbl : List BackupRow) (gid : Nat)
    (live : List GuildRole) : Option (List PyKey) :=
  (latest_backup tbl gid).map (fun row => role_creations row.roles live)

/-- Attributes of the demo role. -/
def demoAttrs : RoleAttrs where
  name := "everyone"
  permissions := 104324161
  color := 0
  hoist := false
  position := 0
  managed := false
  mentionable := false

/-- A one-role live guild: role id 1. -/
def demoRoles : List GuildRole := [⟨1, demoAttrs⟩]

/-- The decimal string of the demo role id, as the JSON round trip stores
it. -/
def oneStr : String := "1"

/-! ### Concrete sample data for witnesses and counterexamples -/

/-- The anti_raid default remedial action, `config.get("action", "kick")`. -/
def actKick : String := "kick"

/-- The anti_raid configuration named by the claims: join_threshold 10,
time_window 60, verification_level 1 (the src/config.py defaults). -/
def cfgR : RaidConfig := ⟨10, 60, 1⟩

/-- An idle anti-raid system: nothing tracked, no guild locked, every
guild at verification level 2. -/
def raidSt0 : RaidSys where
  join_times := fun _ => []
  recent_joins := fun _ => []
  suspected_raiders := fun _ => []
  lockdown_mode := fun _ => false
  verification := fun _ => 2
  timers := []
  moderation_logs := []

/-- Nine distinct accounts (ids 11..19) all joined at time 100. -/
def nineJoins : List (Nat × Nat) := (List.range 9).map (fun i => (11 + i, 100))

/-- Guild 1 has seen the nine joins of `nineJoins`; not locked. -/
def raidSt9 : RaidSys :=
  { raidSt0 with join_times := fun g => if g = 1 then nineJoins else [] }

/-- Guild 1 is in lockdown mode; nothing else tracked. -/
def raidStLocked : RaidSys :=
  { raidSt0 with lockdown_mode := fun g => g == 1 }

/-- A demo joining member: account 20, aged and with a custom avatar. -/
def demoMember : Member where
  id := 20
  created_at := 0
  has_avatar := true
  default_avatar := false
  roles_len := 2

/-- A harmless demo message. -/
def demoMsg : Msg where
  author_bot := false
  mentions := 0
  content := "hello".toList

/-- Two events arriving during a lockdown of guild 1: a join and a
message, all platform calls succeeding. -/
def demoEvents : List REvent :=
  [REvent.join 1 demoMember 60 true true true, REvent.msg 1 21 demoMsg true]

/-- Like `raidSt0` but with every guild at verification level 0, so that
a lockdown activation visibly raises the level. -/
def raidSt0lo : RaidSys := { raidSt0 with verification := fun _ => 0 }

/-! ### Claim C1 — spam response two-tier policy -/

/-- C1 counterexample: tenant 1, subject 2 last warned at time 1000; a
qualifying violation at time 1400 — 400 seconds later, the 300-second
cooldown elapsed — is answered by another warning with the repeat-offender
counter untouched, where the claim asserts the configured punishment and
an incremented counter. -/
theorem spam_cooldown_counterexample :
    (take_action true punMute botIdDemo spamSt1 1 2 1400 demoReason).2 =
      SpamOutcome.warned ∧
    (take_action true punMute botIdDemo spamSt1 1 2 1400 demoReason).1.repeat_offenders 1 2 = 0 ∧
    SpamOutcome.warned ≠ SpamOutcome.punished := by
  refine ⟨by decide, by decide, by decide⟩

/-- C1 (amended): `_take_action` is two-tier per (tenant, subject), with
the tiers the other way round from the claim: when more than 300 seconds
have passed since the last warning (or none was ever issued) it issues a
warning only, recording the warning timestamp and leaving counters and
logs untouched; when a qualifying violation arrives within 300 seconds of
the last warning it applies the configured punishment and increments the
repeat-offender counter, issuing no further warning. -/
theorem spam_two_tier_amended (ok : Bool) (pun : String) (bid : Nat)
    (st : SpamState) (g u now : Nat) (r : String) :
    (300 < now - st.user_last_warn g u →
      (take_action ok pun bid st g u now r).2 = SpamOutcome.warned ∧
      (take_action ok pun bid st g u now r).1.user_last_warn g u = now ∧
      (take_action ok pun bid st g u now r).1.repeat_offenders =
        st.repeat_offenders ∧
      (take_action ok pun bid st g u now r).1.moderation_logs =
        st.moderation_logs) ∧
    (¬ 300 < now - st.user_last_warn g u →
      (take_action true pun bid st g u now r).2 = SpamOutcome.punished ∧
      (take_action true pun bid st g u now r).1.repeat_offenders g u =
        st.repeat_offenders g u + 1 ∧
      (take_action true pun bid st g u now r).1.user_last_warn =
        st.user_last_warn) := by
  constructor
  · intro h
    simp [take_action, h, upd2]
  · intro h
    simp [take_action, h, upd2]

/-- C1 witness: both tiers of `spam_two_tier_amended` evaluated on the
sample state — a violation 400 seconds after the last warning is warned
again, one 100 seconds after it is punished. -/
theorem spam_two_tier_amended_witness :
    (take_action true punMute botIdDemo spamSt1 1 2 1400 demoReason).2 =
      SpamOutcome.warned ∧
    (take_action true punMute botIdDemo spamSt1 1 2 1100 demoReason).2 =
      SpamOutcome.punished := by
  constructor
  · exact ((spam_two_tier_amended true punMute botIdDemo spamSt1 1 2 1400
      demoReason).1 (by decide)).1
  · exact ((spam_two_tier_amended true punMute botIdDemo spamSt1 1 2 1100
      demoReason).2 (by decide)).1

/-! ### Claim C4 — moderation log on failed platform calls -/

/-- C4 counterexample: in both modules the moderation-log insert sits
inside the try block after the platform call, so a permission-denied
punishment (tenant 1, subject 2, within the warning cooldown so the
punishment path runs) records no ModerationLogEntry, and a failing
`_process_suspected_member` call leaves the whole state — including the
log — unchanged, where the claim asserts an entry is always recorded. -/
theorem modlog_forbidden_counterexample :
    (take_action false punMute botIdDemo spamSt1 1 2 1100 demoReason).2 =
      SpamOutcome.punishFailed ∧
    (take_action false punMute botIdDemo spamSt1 1 2 1100 demoReason).1.moderation_logs = [] ∧
    process_suspected_member false actKick botIdDemo raidSt0 1 20 joinLockReason = raidSt0 := by
  refine ⟨rfl, rfl, rfl⟩

/-- C4 (amended): a ModerationLogEntry is recorded exactly when the
platform call carrying out the action succeeds; when it raises (e.g.
permission denied) the handler logs the error and records no entry.
Stated for the anti_spam punishment path and for the anti_raid
suspected-member path. -/
theorem modlog_on_success_amended (pun : String) (bid : Nat)
    (st : SpamState) (g u now : Nat) (r : String)
    (h : ¬ 300 < now - st.user_last_warn g u) :
    (take_action true pun bid st g u now r).1.moderation_logs =
      st.moderation_logs ++ [⟨g, u, pun ++ spamTag, r, bid⟩] ∧
    (take_action false pun bid st g u now r).1.moderation_logs =
      st.moderation_logs ∧
    ∀ (ok : Bool) (a : String) (b2 : Nat) (s : RaidSys) (g2 u2 : Nat)
      (r2 : String),
      (process_suspected_member ok a b2 s g2 u2 r2).moderation_logs =
        if ok then
          s.moderation_logs ++ [⟨g2, u2, antiRaidTag ++ a, r2, b2⟩]
        else s.moderation_logs := by
  refine ⟨?_, ?_, ?_⟩
  · simp [take_action, h]
  · simp [take_action, h]
  · intro ok a b2 s g2 u2 r2
    cases ok <;> simp [process_suspected_member]

/-- C4 witness: `modlog_on_success_amended` at the sample state — the
successful punishment appends exactly its log row, the failing one
appends nothing. -/
theorem modlog_on_success_amended_witness :
    (take_action true punMute botIdDemo spamSt1 1 2 1100 demoReason).1.moderation_logs =
      [] ++ [⟨1, 2, punMute ++ spamTag, demoReason, botIdDemo⟩] ∧
    (take_action false punMute botIdDemo spamSt1 1 2 1100 demoReason).1.moderation_logs = [] := by
  constructor
  · exact (modlog_on_success_amended punMute botIdDemo spamSt1 1 2 1100
      demoReason (by decide)).1
  · exact (modlog_on_success_amended punMute botIdDemo spamSt1 1 2 1100
      demoReason (by decide)).2.1

/-! ### Claims C2 and C3 — backup round trip and history -/

/-- An int-constructed Python dict key never equals a str-constructed one,
as in Python where int and str keys of a dict never collide. -/
theorem int_str_beq_false (n : Nat) (s : String) :
    (PyKey.int n == PyKey.str s) = false := by
  simp

/-- No live integer role id matches a string snapshot key. -/
theorem any_int_str_false (live : List GuildRole) (s : String) :
    (live.any (fun r => PyKey.int r.id == PyKey.str s)) = false := by
  simp

/-- Supporting fact: after the JSON round trip the restore loop issues a
creation call for every snapshot role, whatever roles are live, because a
string snapshot key is never found among the integer live keys. -/
theorem restore_creates_every_role (roles live : List GuildRole) :
    (role_creations (json_round_trip (serialize_roles roles)) live).length =
      roles.length := by
  induction roles with
  | nil => rfl
  | cons r rs ih =>
      simpa [role_creations, json_round_trip, serialize_roles, key_to_json,
        any_int_str_false] using ih

/-- C2: snapshotting the unmodified one-role tenant 1 and immediately
restoring issues one role-creation call — for the very role that is still
live — not zero: json serialization turns the int key 1 into the string
key "1", which the restore loop then fails to find among the live integer
keys.  The claim asserts the second component is `some []`. -/
theorem backup_roundtrip_recreates_all_roles :
    restore_guild (backup_guild [] 1 demoRoles 100) 1 demoRoles =
      some [PyKey.str oneStr] ∧
    some [PyKey.str oneStr] ≠ some ([] : List PyKey) := by
  refine ⟨by decide, by decide⟩

/-- C3: the server_backups schema keys rows by `server_id INTEGER PRIMARY
KEY` and backup_guild writes with INSERT OR REPLACE, so a second snapshot
of tenant 1 replaces the first: after snapshots at times 100 and 200 the
table holds exactly the one row with timestamp 200, and restore selects
it only because it is the sole row left — the snapshot taken at 100 has
been destroyed, where the claim asserts it is retained. -/
theorem backup_overwrites_history :
    backup_guild [] 1 demoRoles 100 =
      [⟨1, json_round_trip (serialize_roles demoRoles), 100⟩] ∧
    backup_guild (backup_guild [] 1 demoRoles 100) 1 demoRoles 200 =
      [⟨1, json_round_trip (serialize_roles demoRoles), 200⟩] ∧
    latest_backup (backup_guild (backup_guild [] 1 demoRoles 100) 1
        demoRoles 200) 1 =
      some ⟨1, json_round_trip (serialize_roles demoRoles), 200⟩ := by
  refine ⟨by decide, by decide, by decide⟩

/-! ### Claim C5 — audit actor resolution for role deletions -/

/-- C5: on the feed whose most recent role-delete entry is by account 7
and whose most recent channel-delete entry is by account 9, the
role-deletion handler resolves — and charges — account 9, because
`_get_last_deletor` filters the audit feed by the channel_delete action
type even when called for a role deletion; the spec's correlator
(matching entries of the event's own kind) names account 7. -/
theorem role_delete_actor_uses_channel_audit :
    resolve_deletor true (some demoFeed) = some 9 ∧
    audit_actor_spec AuditAction.role_delete demoFeed = some 7 ∧
    (on_guild_role_delete cfg3 nukeZero 1 true (some demoFeed)).1.role_deletions 1 9 = 1 ∧
    (on_guild_role_delete cfg3 nukeZero 1 true (some demoFeed)).1.role_deletions 1 7 = 0 ∧
    (9 : Nat) ≠ 7 := by
  refine ⟨by decide, by decide, by decide, by decide, by decide⟩

/-! ### Claim C8 — strict channel-deletion threshold -/

/-- C8: with max_channel_deletes = 3, starting from a zero counter for
the (tenant, actor) pair, four successive channel deletions all resolved
to that actor produce no Verdict on the first three — in particular none
on the 3rd, the threshold being strict — and exactly one on the 4th. -/
theorem nuke_threshold_strict (st : NukeState) (g a : Nat) (vp : Bool)
    (feed : Option (List AuditEntry))
    (h0 : st.channel_deletions g a = 0)
    (hres : resolve_deletor vp feed = some a) :
    let r1 := on_guild_channel_delete cfg3 st g vp feed
    let r2 := on_guild_channel_delete cfg3 r1.1 g vp feed
    let r3 := on_guild_channel_delete cfg3 r2.1 g vp feed
    let r4 := on_guild_channel_delete cfg3 r3.1 g vp feed
    r1.2 = false ∧ r2.2 = false ∧ r3.2 = false ∧ r4.2 = true := by
  simp [on_guild_channel_delete, hres, h0, upd2, cfg3]

/-- C8 witness: the four-deletion run evaluated with actor 9 resolved
from the demo audit feed. -/
theorem nuke_threshold_strict_witness :
    let r1 := on_guild_channel_delete cfg3 nukeZero 1 true (some demoFeed)
    let r2 := on_guild_channel_delete cfg3 r1.1 1 true (some demoFeed)
    let r3 := on_guild_channel_delete cfg3 r2.1 1 true (some demoFeed)
    let r4 := on_guild_channel_delete cfg3 r3.1 1 true (some demoFeed)
    r1.2 = false ∧ r2.2 = false ∧ r3.2 = false ∧ r4.2 = true :=
  nuke_threshold_strict nukeZero 1 9 true (some demoFeed) (by decide) (by decide)

/-! ### Claim C9 — unresolved actor suppresses the Verdict -/

/-- C9: whenever the deletion handlers fail to resolve an actor — view
permission missing, audit access denied (a Forbidden feed), or no
matching audit entry — both handlers leave the counters untouched and
issue no Verdict, so no remedial action is taken against any account. -/
theorem unknown_actor_no_verdict (cfg : NukeConfig) (st : NukeState)
    (g : Nat) (vp : Bool) (feed : Option (List AuditEntry))
    (hres : resolve_deletor vp feed = none) :
    on_guild_channel_delete cfg st g vp feed = (st, false) ∧
    on_guild_role_delete cfg st g vp feed = (st, false) ∧
    (∀ f2, resolve_deletor false f2 = none) ∧
    get_last_deletor none = none := by
  refine ⟨?_, ?_, fun f2 => rfl, rfl⟩
  · simp [on_guild_channel_delete, hres]
  · simp [on_guild_role_delete, hres]

/-- C9 witness: with the audit-view permission denied the channel-delete
handler returns the state unchanged with no Verdict. -/
theorem unknown_actor_no_verdict_witness :
    on_guild_channel_delete cfg3 nukeZero 1 false (some demoFeed) =
      (nukeZero, false) :=
  (unknown_actor_no_verdict cfg3 nukeZero 1 false (some demoFeed) (by decide)).1

/-! ### Claim C6 — lockdown fires on the 10th join, exactly once -/

/-- C6: with join_threshold 10 and time_window 60, on a tenant not in
lockdown showing 9 joins inside the window, a 10th join by a fresh
account locks the tenant and the handler reports the activation; further,
activating a locked tenant is a no-op, and a join arriving while locked
takes the suspect path without touching the lockdown flag, so activation
cannot re-trigger. -/
theorem raid_lockdown_tenth_join (ok eok iok : Bool) (a : String) (b : Nat)
    (s : RaidSys) (g : Nat) (m : Member) (now : Nat) :
    (s.lockdown_mode g = false →
      get_recent_joins cfgR s g now = 9 →
      (s.join_times g).any (fun p => p.1 == m.id) = false →
      (on_member_join cfgR ok eok iok a b s g m now).1.lockdown_mode g = true ∧
      (on_member_join cfgR ok eok iok a b s g m now).2 = JoinOutcome.activated) ∧
    (s.lockdown_mode g = true → activate_lockdown cfgR eok iok s g now = s) ∧
    (s.lockdown_mode g = true →
      (on_member_join cfgR ok eok iok a b s g m now).2 =
        JoinOutcome.lockdown_suspect ∧
      (on_member_join cfgR ok eok iok a b s g m now).1.lockdown_mode g = true) := by
  refine ⟨?_, ?_, ?_⟩
  · intro hlock h9 hfresh
    have hdict : dictSet (s.join_times g) m.id now =
        s.join_times g ++ [(m.id, now)] := by
      simp [dictSet, hfresh]
    simp [get_recent_joins, cfgR] at h9
    constructor <;>
      cases eok <;> cases iok <;>
      simp [on_member_join, hlock, get_recent_joins, upd1, hdict,
        List.filter_append, h9, activate_lockdown, cfgR]
  · intro h
    simp [activate_lockdown, h]
  · intro h
    cases ok <;> simp [on_member_join, h, process_suspected_member]

/-- C6 witness: guild 1 with nine tracked joins at time 100 locks on the
10th join at time 130; the already-locked guild neither re-activates nor
re-enters the threshold path on a further join. -/
theorem raid_lockdown_tenth_join_witness :
    ((on_member_join cfgR true true true actKick botIdDemo raidSt9 1 demoMember 130).1.lockdown_mode 1 = true ∧
     (on_member_join cfgR true true true actKick botIdDemo raidSt9 1 demoMember 130).2 =
       JoinOutcome.activated) ∧
    activate_lockdown cfgR true true raidStLocked 1 500 = raidStLocked ∧
    (on_member_join cfgR true true true actKick botIdDemo raidStLocked 1 demoMember 500).2 =
      JoinOutcome.lockdown_suspect := by
  refine ⟨?_, ?_, ?_⟩
  · exact (raid_lockdown_tenth_join true true true actKick botIdDemo raidSt9 1
      demoMember 130).1 (by decide) (by decide) (by decide)
  · exact (raid_lockdown_tenth_join true true true actKick botIdDemo raidStLocked 1
      demoMember 500).2.1 (by decide)
  · exact ((raid_lockdown_tenth_join true true true actKick botIdDemo raidStLocked 1
      demoMember 500).2.2 (by decide)).1

/-! ### Claim C10 — joins during lockdown leave tracking state alone -/

/-- C10: a join arriving while the tenant is locked is handed to the
remedial action (when the platform calls succeed, exactly the anti-raid
log row for the joining account is appended) while the join-time window,
the recent-join set and the suspect set are left unchanged — the account
is tracked in none of them. -/
theorem lockdown_join_frame (cfg : RaidConfig) (ok eok iok : Bool)
    (a : String) (b : Nat) (s : RaidSys) (g : Nat) (m : Member) (now : Nat)
    (h : s.lockdown_mode g = true) :
    (on_member_join cfg ok eok iok a b s g m now).2 =
      JoinOutcome.lockdown_suspect ∧
    (on_member_join cfg ok eok iok a b s g m now).1.join_times = s.join_times ∧
    (on_member_join cfg ok eok iok a b s g m now).1.recent_joins =
      s.recent_joins ∧
    (on_member_join cfg ok eok iok a b s g m now).1.suspected_raiders =
      s.suspected_raiders ∧
    (ok = true →
      (on_member_join cfg ok eok iok a b s g m now).1.moderation_logs =
        s.moderation_logs ++ [⟨g, m.id, antiRaidTag ++ a, joinLockReason, b⟩]) := by
  cases ok <;> simp [on_member_join, h, process_suspected_member]

/-- C10 witness: the locked guild 1 processes the joining account 20
without recording it in any tracking structure. -/
theorem lockdown_join_frame_witness :
    (on_member_join cfgR true true true actKick botIdDemo raidStLocked 1 demoMember 500).2 =
      JoinOutcome.lockdown_suspect ∧
    (on_member_join cfgR true true true actKick botIdDemo raidStLocked 1 demoMember 500).1.join_times =
      raidStLocked.join_times ∧
    (on_member_join cfgR true true true actKick botIdDemo raidStLocked 1 demoMember 500).1.recent_joins =
      raidStLocked.recent_joins ∧
    (on_member_join cfgR true true true actKick botIdDemo raidStLocked 1 demoMember 500).1.suspected_raiders =
      raidStLocked.suspected_raiders ∧
    (true = true →
      (on_member_join cfgR true true true actKick botIdDemo raidStLocked 1 demoMember 500).1.moderation_logs =
        raidStLocked.moderation_logs ++
          [⟨1, demoMember.id, antiRaidTag ++ actKick, joinLockReason, botIdDemo⟩]) :=
  lockdown_join_frame cfgR true true true actKick botIdDemo raidStLocked 1
    demoMember 500 (by decide)

/-! ### Claim C7 — scheduled lockdown release -/

/-- Any single anti-raid event leaves a locked guild locked, leaves its
platform verification level untouched, and removes no scheduled release
task. -/
theorem step_preserves_locked (cfg : RaidConfig) (a : String) (b : Nat)
    (s : RaidSys) (g : Nat) (e : REvent) (h : s.lockdown_mode g = true) :
    (step_event cfg a b s e).lockdown_mode g = true ∧
    (step_event cfg a b s e).verification g = s.verification g ∧
    ∀ t, t ∈ s.timers → t ∈ (step_event cfg a b s e).timers := by
  cases e with
  | join g2 m now ok eok iok =>
      cases hb : s.lockdown_mode g2 with
      | true =>
          cases ok <;>
            simp [step_event, on_member_join, hb, process_suspected_member, h]
      | false =>
          have hgg : g ≠ g2 := by
            intro hEq
            rw [hEq] at h
            rw [h] at hb
            simp at hb
          simp only [step_event, on_member_join, hb, Bool.false_eq_true,
            if_false]
          split_ifs with hthr hsusp
          · refine ⟨?_, ?_, ?_⟩
            · cases eok <;> cases iok <;>
                simp [activate_lockdown, upd1, hb, hgg, h]
            · cases eok <;> cases iok <;>
                simp [activate_lockdown, upd1, hb, hgg]
            · intro t ht
              cases eok <;> cases iok <;>
                simp [activate_lockdown, upd1, hb, ht]
          · cases ok <;> simp [process_suspected_member, h]
          · exact ⟨h, rfl, fun t ht => ht⟩
  | msg g2 u m ok =>
      cases ok <;>
        simp [step_event, raid_on_message, process_suspected_member] <;>
        split_ifs <;> simp [h]

/-- Delivering any event sequence to a locked guild keeps it locked,
keeps its verification level, and loses no scheduled release task. -/
theorem run_preserves_locked (cfg : RaidConfig) (a : String) (b : Nat)
    (evs : List REvent) (s : RaidSys) (g : Nat)
    (h : s.lockdown_mode g = true) :
    (run_events cfg a b evs s).lockdown_mode g = true ∧
    (run_events cfg a b evs s).verification g = s.verification g ∧
    ∀ t, t ∈ s.timers → t ∈ (run_events cfg a b evs s).timers := by
  induction evs generalizing s with
  | nil => exact ⟨h, rfl, fun t ht => ht⟩
  | cons e rest ih =>
      have hstep := step_preserves_locked cfg a b s g e h
      have hrest := ih (step_event cfg a b s e) hstep.1
      refine ⟨hrest.1, ?_, ?_⟩
      · rw [run_events, hrest.2.1, hstep.2.1]
      · intro t ht
        rw [run_events]
        exact hrest.2.2 t (hstep.2.2 t ht)

/-- C7 counterexample: two concrete tenants whose lockdown was activated
and never auto-reverts.  Activating guild 1 at time 50 with the invite
fetch raising (`invites_ok = false`) — or with the verification edit
itself denied — leaves the guild locked with no release task scheduled,
so nothing ever fires at time 3650.  And after a fully successful
activation from verification level 0, a release whose `guild.edit` is
denied consumes the task while leaving the guild locked at the raised
level 1, not the pre-lockdown level 0 the claim says is restored. -/
theorem lockdown_stuck_counterexample :
    (activate_lockdown cfgR true false raidSt0 1 50).lockdown_mode 1 = true ∧
    (activate_lockdown cfgR true false raidSt0 1 50).timers = [] ∧
    (activate_lockdown cfgR false true raidSt0 1 50).timers = [] ∧
    (disable_lockdown false (activate_lockdown cfgR true true raidSt0lo 1 50)
        ⟨1, 3650, 0⟩).lockdown_mode 1 = true ∧
    (disable_lockdown false (activate_lockdown cfgR true true raidSt0lo 1 50)
        ⟨1, 3650, 0⟩).verification 1 = 1 ∧
    (1 : Nat) ≠ 0 := by
  refine ⟨by decide, by decide, by decide, by decide, by decide, by decide⟩

/-- C7 (amended): when the activation's platform calls complete, a
release task carrying the pre-lockdown verification level is scheduled
for exactly 3600 seconds after activation; whatever events arrive in
between, that task is still pending, and when it runs with its
verification edit succeeding the tenant reverts to NORMAL with the
pre-lockdown verification level restored.  When a platform call aborts
the activation's try block, the tenant is locked but no release is
scheduled; when the release's verification edit is denied, the lockdown
flag and the verification level are left as they were. -/
theorem lockdown_autorevert (cfg : RaidConfig) (a : String) (b : Nat)
    (s : RaidSys) (g now : Nat) (evs : List REvent)
    (h : s.lockdown_mode g = false) :
    (⟨g, now + 3600, s.verification g⟩ : LockTimer) ∈
      (run_events cfg a b evs (activate_lockdown cfg true true s g now)).timers ∧
    (disable_lockdown true
        (run_events cfg a b evs (activate_lockdown cfg true true s g now))
        ⟨g, now + 3600, s.verification g⟩).lockdown_mode g = false ∧
    (disable_lockdown true
        (run_events cfg a b evs (activate_lockdown cfg true true s g now))
        ⟨g, now + 3600, s.verification g⟩).verification g = s.verification g ∧
    (∀ eok iok : Bool, (eok && iok) = false →
      (activate_lockdown cfg eok iok s g now).lockdown_mode g = true ∧
      (activate_lockdown cfg eok iok s g now).timers = s.timers) ∧
    (∀ (s2 : RaidSys) (t : LockTimer),
      (disable_lockdown false s2 t).lockdown_mode = s2.lockdown_mode ∧
      (disable_lockdown false s2 t).verification = s2.verification) := by
  have h1 : (activate_lockdown cfg true true s g now).lockdown_mode g = true := by
    simp [activate_lockdown, h, upd1]
  have hmem : (⟨g, now + 3600, s.verification g⟩ : LockTimer) ∈
      (activate_lockdown cfg true true s g now).timers := by
    simp [activate_lockdown, h]
  have hrun := run_preserves_locked cfg a b evs
    (activate_lockdown cfg true true s g now) g h1
  refine ⟨hrun.2.2 _ hmem, by simp [disable_lockdown, upd1],
    by simp [disable_lockdown, upd1], ?_, ?_⟩
  · intro eok iok hf
    cases eok <;> cases iok <;> simp_all [activate_lockdown, h, upd1]
  · intro s2 t
    exact ⟨rfl, rfl⟩

/-- C7 witness: guild 1 locked at time 50 with original verification
level 2, all activation calls succeeding; after a further join and
message the release task scheduled for time 3650 is still pending and
running it with a successful edit unlocks the guild and restores
level 2. -/
theorem lockdown_autorevert_witness :
    ((⟨1, 3650, 2⟩ : LockTimer) ∈
      (run_events cfgR actKick botIdDemo demoEvents
        (activate_lockdown cfgR true true raidSt0 1 50)).timers) ∧
    (disable_lockdown true (run_events cfgR actKick botIdDemo demoEvents
        (activate_lockdown cfgR true true raidSt0 1 50))
        ⟨1, 3650, 2⟩).lockdown_mode 1 = false ∧
    (disable_lockdown true (run_events cfgR actKick botIdDemo demoEvents
        (activate_lockdown cfgR true true raidSt0 1 50))
        ⟨1, 3650, 2⟩).verification 1 = 2 := by
  have h2 := lockdown_autorevert cfgR actKick botIdDemo raidSt0 1 50
    demoEvents (by decide)
  exact ⟨h2.1, h2.2.1, h2.2.2.1⟩

end AIDefender
